import Mathlib

/-!
Shallow embedding of the StreamLine thread-coordination primitives
(src/include/WaitGroup.h, src/include/Latch.h, src/include/Barrier.h).

Threads are identified by natural numbers; `std::exception_ptr` payloads are
modelled as natural numbers (a `some e` argument to `Done` is a non-null
pointer, `none` is `nullptr`).  The `count` field is `std::atomic<unsigned int>`
(32-bit), so counter arithmetic is carried out modulo `U32 = 2^32`; the
wrapping decrement performed by `count.fetch_sub(1)` is written as a zero test
(`0` wraps to `2^32 - 1`, anything else is decremented), which is the value of
`(c + 2^32 - 1) % 2^32` for `c < 2^32` (proved in `u32decr_eq_mod`).
Blocking is modelled by a sequential small-step semantics: while the owner sits
in `Wait`/`WaitFor` no other thread runs, so `cv.wait`'s predicate is evaluated
on the state at entry; a plain `Wait` whose predicate is false is recorded as
`blocked` (it would block forever in this interleaving), and `cv.wait_for`
returns the predicate's value.  Each operation returns the successor state
together with its visible outcome (return value, thrown exception, or the
`cv.notify_all` signal for `Done`).
-/

/-- Modulus of `unsigned int` (32-bit): 2^32. -/
def U32 : Nat := 4294967296

/-- Wrapping decrement of a 32-bit unsigned value, as performed by
`count.fetch_sub(1)`: 0 wraps to `2^32 - 1`, any other value is decremented. -/
def u32decr (n : Nat) : Nat :=
  if n = 0 then U32 - 1 else n - 1

/-- Conversion `unsigned int -> int` (two's complement wrap), used by
`def_count = count.load(...)` in `WaitGroup::Add`. -/
def toInt32 (n : Nat) : Int :=
  if n % U32 < 2147483648 then ((n % U32 : Nat) : Int)
  else ((n % U32 : Nat) : Int) - (U32 : Int)

/-- Conversion `int -> unsigned int` (reduction modulo 2^32), used when an
`int` value is stored into the `std::atomic<unsigned int>` counter. -/
def intToU32 (i : Int) : Nat := (i % (U32 : Int)).toNat

/-- The exceptions thrown by `WaitGroup` operations:
`ThreadOwnershipException`, `WaitGroupUseAfterWait`, the two
`std::runtime_error`s ("one-use only" and "Cannot reset ..."), and
`CongregatedException` carrying the collected `exception_ptr`s. -/
inductive WGException where
  | threadOwnership
  | useAfterWait
  | oneUseOnly
  | notQuiescent
  | congregated (exps : List Nat)
deriving DecidableEq, Repr

/-- State of a `StreamLine::WaitGroup` (src/include/WaitGroup.h):
`count` (atomic unsigned int), `owner` (thread id), `waiting` (atomic bool),
`collected` (vector of exception_ptr), `def_count` (int, the Reset snapshot). -/
structure WaitGroup where
  count : Nat
  owner : Nat
  waiting : Bool
  collected : List Nat
  def_count : Int
deriving DecidableEq, Repr

/-- Default construction `WaitGroup()` on thread `o`: count 0, owner is the
constructing thread, not waiting, no collected exceptions, def_count 0. -/
def mkWaitGroup (o : Nat) : WaitGroup :=
  { count := 0, owner := o, waiting := false, collected := [], def_count := 0 }

/-- `WaitGroup::Add(int n)` called from thread `tid`: throws
`ThreadOwnershipException` for a non-owner, `WaitGroupUseAfterWait` once
`waiting` is set; otherwise `count.fetch_add(n)` (mod 2^32) and
`def_count = count.load()`. Returns (state, thrown exception if any). -/
def WaitGroup.Add (s : WaitGroup) (tid : Nat) (n : Int) :
    WaitGroup × Option WGException :=
  if tid ≠ s.owner then (s, some .threadOwnership)
  else if s.waiting then (s, some .useAfterWait)
  else
    let c := intToU32 ((s.count : Int) + n)
    ({ s with count := c, def_count := toInt32 c }, none)

/-- `WaitGroup::Done(exception_ptr ex)` called from thread `tid`: early-returns
if the caller is the owner; otherwise pushes a non-null `ex` onto `collected`,
then `count.fetch_sub(1)` (32-bit wrapping decrement) and `cv.notify_all()`
exactly when the pre-decrement value was 1.
Returns (state, whether notify_all fired). -/
def WaitGroup.Done (s : WaitGroup) (tid : Nat) (ex : Option Nat) :
    WaitGroup × Bool :=
  if tid = s.owner then (s, false)
  else
    let s1 :=
      match ex with
      | some e => { s with collected := s.collected ++ [e] }
      | none => s
    ({ s1 with count := u32decr s1.count }, s1.count == 1)

/-- `WaitGroup::Transfer(original)` called from thread `tid`: throws
`WaitGroupUseAfterWait` if the source is waiting (source untouched); otherwise
builds a fresh `WaitGroup` owned by the caller, moves count, collected and
def_count into it, and zeroes them in the source.
Returns (source state, either the thrown exception or the new WaitGroup). -/
def WaitGroup.Transfer (s : WaitGroup) (tid : Nat) :
    WaitGroup × Except WGException WaitGroup :=
  if s.waiting then (s, .error .useAfterWait)
  else
    ({ s with count := 0, collected := [], def_count := 0 },
     .ok { count := s.count, owner := tid, waiting := false,
           collected := s.collected, def_count := s.def_count })

/-- Outcome of `WaitGroup::Wait`: normal return, a thrown exception, or
blocking forever (sequential semantics: the count is nonzero and no worker
runs while the owner waits). -/
inductive WaitRes where
  | ret
  | thrown (e : WGException)
  | blocked
deriving DecidableEq, Repr

/-- `WaitGroup::Wait()` called from thread `tid`: ownership check, then the
one-shot CAS on `waiting` (failure throws the "one-use only" runtime_error),
then `cv.wait` until `count == 0`, then throws
`CongregatedException(std::move(collected))` if any exceptions were
collected (leaving `collected` moved-from, i.e. empty). -/
def WaitGroup.Wait (s : WaitGroup) (tid : Nat) : WaitGroup × WaitRes :=
  if tid ≠ s.owner then (s, .thrown .threadOwnership)
  else if s.waiting then (s, .thrown .oneUseOnly)
  else
    let s1 : WaitGroup := { s with waiting := true }
    if s1.count ≠ 0 then (s1, .blocked)
    else if s1.collected ≠ [] then
      ({ s1 with collected := [] }, .thrown (.congregated s1.collected))
    else (s1, .ret)

/-- Outcome of `WaitGroup::WaitFor`: the returned bool, or a thrown
exception. -/
inductive WaitForRes where
  | ret (success : Bool)
  | thrown (e : WGException)
deriving DecidableEq, Repr

/-- `WaitGroup::WaitFor(timeout)` called from thread `tid`: ownership check,
one-shot CAS on `waiting`, then `cv.wait_for` whose predicate `count == 0`
is evaluated on the state at entry (sequential semantics: no worker runs
during the bounded wait); on success with a non-empty `collected` it throws
`CongregatedException(std::move(collected))`, otherwise returns `success`.
The `waiting` flag is never cleared, even on timeout. -/
def WaitGroup.WaitFor (s : WaitGroup) (tid : Nat) : WaitGroup × WaitForRes :=
  if tid ≠ s.owner then (s, .thrown .threadOwnership)
  else if s.waiting then (s, .thrown .oneUseOnly)
  else
    let s1 : WaitGroup := { s with waiting := true }
    let success := s1.count == 0
    if success = true ∧ s1.collected ≠ [] then
      ({ s1 with collected := [] }, .thrown (.congregated s1.collected))
    else (s1, .ret success)

/-- `WaitGroup::Reset()` called from thread `tid`: ownership check, then
throws the "Cannot reset" runtime_error when `count != 0 && waiting == true`;
otherwise `count.store(def_count)` (int stored into unsigned, mod 2^32),
clears `waiting` and clears `collected`. -/
def WaitGroup.Reset (s : WaitGroup) (tid : Nat) :
    WaitGroup × Option WGException :=
  if s.owner ≠ tid then (s, some .threadOwnership)
  else if s.count ≠ 0 ∧ s.waiting = true then (s, some .notQuiescent)
  else
    ({ s with count := intToU32 s.def_count, waiting := false,
              collected := [] }, none)

/-- `WaitGroup::HasFinishedSuccessfully()`: `!collected.size()`. -/
def WaitGroup.HasFinishedSuccessfully (s : WaitGroup) : Bool :=
  s.collected.isEmpty

/-- `WaitGroup::GetExceptions()`: the `collected` vector. -/
def WaitGroup.GetExceptions (s : WaitGroup) : List Nat :=
  s.collected

/-- `WaitGroup::GetCount()`: `count.load()`. -/
def WaitGroup.GetCount (s : WaitGroup) : Nat :=
  s.count

/-- Run a sequence of `Done` calls, each given as (caller thread id,
optional exception). -/
def WaitGroup.runDones (s : WaitGroup) (ds : List (Nat × Option Nat)) :
    WaitGroup :=
  ds.foldl (fun st d => (st.Done d.1 d.2).1) s

/-- The zero-test form of the wrapping decrement agrees with subtraction
modulo 2^32 on 32-bit values. -/
lemma u32decr_eq_mod (n : Nat) (h : n < U32) :
    u32decr n = (n + (U32 - 1)) % U32 := by
  unfold u32decr U32 at *
  split
  · omega
  · omega

/-- Effect of one non-owner `Done` on every field. -/
lemma WaitGroup.Done_fields (s : WaitGroup) (t : Nat) (ex : Option Nat)
    (ht : t ≠ s.owner) :
    (s.Done t ex).1.owner = s.owner ∧
    (s.Done t ex).1.waiting = s.waiting ∧
    (s.Done t ex).1.def_count = s.def_count ∧
    (s.Done t ex).1.collected = s.collected ++ ex.toList ∧
    (s.Done t ex).1.count = u32decr s.count := by
  cases ex <;> simp [WaitGroup.Done, ht]

/-- Effect of a sequence of non-owner `Done` calls: owner, waiting flag and
snapshot are untouched and the attached exceptions are appended to
`collected` in order. -/
lemma WaitGroup.runDones_fields (ds : List (Nat × Option Nat)) (s : WaitGroup)
    (h : ∀ p ∈ ds, p.1 ≠ s.owner) :
    (s.runDones ds).owner = s.owner ∧
    (s.runDones ds).waiting = s.waiting ∧
    (s.runDones ds).def_count = s.def_count ∧
    (s.runDones ds).collected = s.collected ++ ds.filterMap Prod.snd := by
  induction ds generalizing s with
  | nil => exact ⟨rfl, rfl, rfl, by simp [runDones]⟩
  | cons d ds ih =>
      obtain ⟨t, ex⟩ := d
      have ht : t ≠ s.owner := h (t, ex) (List.mem_cons_self _ _)
      have hstep := WaitGroup.Done_fields s t ex ht
      have hrun : s.runDones ((t, ex) :: ds) = (s.Done t ex).1.runDones ds :=
        rfl
      have hmem : ∀ p ∈ ds, p.1 ≠ (s.Done t ex).1.owner := by
        intro p hp
        rw [hstep.1]
        exact h p (List.mem_cons_of_mem _ hp)
      have htail := ih (s.Done t ex).1 hmem
      refine ⟨?_, ?_, ?_, ?_⟩
      · rw [hrun, htail.1, hstep.1]
      · rw [hrun, htail.2.1, hstep.2.1]
      · rw [hrun, htail.2.2.1, hstep.2.2.1]
      · rw [hrun, htail.2.2.2, hstep.2.2.2.1]
        cases ex <;> simp

/-- A sequence of non-owner `Done` calls whose length equals the current
count drives the count to exactly 0 (each call decrements a positive count
by one, so no wrap-around occurs). -/
lemma WaitGroup.runDones_count_zero (ds : List (Nat × Option Nat))
    (s : WaitGroup) (h : ∀ p ∈ ds, p.1 ≠ s.owner)
    (hc : s.count = ds.length) :
    (s.runDones ds).count = 0 := by
  induction ds generalizing s with
  | nil => simpa [runDones] using hc
  | cons d ds ih =>
      obtain ⟨t, ex⟩ := d
      have ht : t ≠ s.owner := h (t, ex) (List.mem_cons_self _ _)
      have hstep := WaitGroup.Done_fields s t ex ht
      have hrun : s.runDones ((t, ex) :: ds) = (s.Done t ex).1.runDones ds :=
        rfl
      have hmem : ∀ p ∈ ds, p.1 ≠ (s.Done t ex).1.owner := by
        intro p hp
        rw [hstep.1]
        exact h p (List.mem_cons_of_mem _ hp)
      have hcount : (s.Done t ex).1.count = ds.length := by
        rw [hstep.2.2.2.2, hc]
        unfold u32decr
        simp [List.length_cons]
      rw [hrun]
      exact ih (s.Done t ex).1 hmem hcount

/-- C7: `Done` invoked by the owner thread itself is a no-op: for every
WaitGroup state and every exception argument, the state is returned unchanged
(count not decremented, nothing appended to `collected`) and `cv.notify_all`
does not fire. -/
theorem c7_done_by_owner_is_noop (s : WaitGroup) (ex : Option Nat) :
    s.Done s.owner ex = (s, false) := by
  simp [WaitGroup.Done]

/-- C3: invoking `Add`, `Wait`, `WaitFor` or `Reset` from a thread other than
the stored owner throws `ThreadOwnershipException` and leaves the state
unchanged, whatever the prior state: the ownership check precedes every other
check and every mutation. -/
theorem c3_nonowner_ownership_violation (s : WaitGroup) (tid : Nat) (n : Int)
    (h : tid ≠ s.owner) :
    s.Add tid n = (s, some .threadOwnership) ∧
    s.Wait tid = (s, .thrown .threadOwnership) ∧
    s.WaitFor tid = (s, .thrown .threadOwnership) ∧
    s.Reset tid = (s, some .threadOwnership) := by
  refine ⟨?_, ?_, ?_, ?_⟩
  · rw [WaitGroup.Add, if_pos h]
  · rw [WaitGroup.Wait, if_pos h]
  · rw [WaitGroup.WaitFor, if_pos h]
  · rw [WaitGroup.Reset, if_pos (fun hh => h hh.symm)]

/-- C3 witness: a non-owner call at a concrete state. -/
theorem c3_nonowner_ownership_violation_witness :
    (mkWaitGroup 0).Add 1 5 = (mkWaitGroup 0, some .threadOwnership) ∧
    (mkWaitGroup 0).Wait 1 = (mkWaitGroup 0, .thrown .threadOwnership) ∧
    (mkWaitGroup 0).WaitFor 1 = (mkWaitGroup 0, .thrown .threadOwnership) ∧
    (mkWaitGroup 0).Reset 1 = (mkWaitGroup 0, some .threadOwnership) :=
  c3_nonowner_ownership_violation (mkWaitGroup 0) 1 5 (by decide)

/-- Reduction modulo 2^32 is the identity on 32-bit values cast from Nat. -/
lemma intToU32_natCast_lt (m : Nat) (h : m < U32) : intToU32 (m : Int) = m := by
  unfold intToU32 U32 at *
  omega

/-- The unsigned reinterpretation of any int is a 32-bit value. -/
lemma intToU32_lt (i : Int) : intToU32 i < U32 := by
  unfold intToU32 U32
  omega

/-- Storing a 32-bit counter value through the int snapshot and back is the
identity: `unsigned -> int -> unsigned` round-trips below 2^32. -/
lemma intToU32_toInt32 (c : Nat) (hc : c < U32) :
    intToU32 (toInt32 c) = c := by
  unfold intToU32 toInt32 U32 at *
  split
  · omega
  · omega

/-- Successful `Add` by the owner before waiting: the counter becomes
`count + n` reduced to unsigned, and the snapshot records it. -/
lemma WaitGroup.Add_ok (s : WaitGroup) (tid : Nat) (n : Int)
    (h1 : tid = s.owner) (h2 : s.waiting = false) :
    s.Add tid n =
      ({ s with count := intToU32 ((s.count : Int) + n),
                def_count := toInt32 (intToU32 ((s.count : Int) + n)) },
       none) := by
  rw [WaitGroup.Add, if_neg (by simp [h1]), if_neg (by simp [h2])]

/-- C1: from a fresh WaitGroup owned by thread `o`, `Add(n)` (n ≥ 0, a valid
int) followed by exactly `n` calls to `Done()` from arbitrary non-owner
threads succeeds, drives the count to zero, makes `Wait()` on the owner
return normally (no blocking, nothing thrown), and `GetCount()` reads 0
immediately after. -/
theorem c1_add_n_dones_wait_returns (o n : Nat) (ds : List Nat)
    (hn : n < 2147483648) (hlen : ds.length = n) (hds : ∀ t ∈ ds, t ≠ o) :
    ((mkWaitGroup o).Add o (n : Int)).2 = none ∧
    ((((mkWaitGroup o).Add o (n : Int)).1.runDones
        (ds.map (fun t => (t, (none : Option Nat))))).Wait o).2 = .ret ∧
    (((((mkWaitGroup o).Add o (n : Int)).1.runDones
        (ds.map (fun t => (t, (none : Option Nat))))).Wait o).1).GetCount
      = 0 := by
  have hadd := WaitGroup.Add_ok (mkWaitGroup o) o (n : Int) rfl rfl
  have hcast : intToU32 (((mkWaitGroup o).count : Int) + (n : Int)) = n := by
    have : ((mkWaitGroup o).count : Int) + (n : Int) = ((n : Nat) : Int) := by
      simp [mkWaitGroup]
    rw [this]
    exact intToU32_natCast_lt n (by unfold U32; omega)
  set s1 := ((mkWaitGroup o).Add o (n : Int)).1 with hs1
  have hs1count : s1.count = n := by
    rw [hs1, hadd, hcast]
  have hs1owner : s1.owner = o := by rw [hs1, hadd]; rfl
  have hs1waiting : s1.waiting = false := by rw [hs1, hadd]; rfl
  have hs1coll : s1.collected = [] := by rw [hs1, hadd]; rfl
  have hmem : ∀ p ∈ ds.map (fun t => (t, (none : Option Nat))),
      p.1 ≠ s1.owner := by
    intro p hp
    obtain ⟨t, ht, rfl⟩ := List.mem_map.mp hp
    rw [hs1owner]
    exact hds t ht
  set s2 := s1.runDones (ds.map (fun t => (t, (none : Option Nat)))) with hs2
  have hflds := WaitGroup.runDones_fields _ s1 hmem
  have hzero := WaitGroup.runDones_count_zero _ s1 hmem
    (by rw [hs1count, List.length_map, hlen])
  have hs2owner : s2.owner = o := by rw [hs2, hflds.1, hs1owner]
  have hs2waiting : s2.waiting = false := by rw [hs2, hflds.2.1, hs1waiting]
  have hs2coll : s2.collected = [] := by
    rw [hs2, hflds.2.2.2, hs1coll]
    simp
  refine ⟨by rw [hadd], ?_, ?_⟩
  · rw [WaitGroup.Wait, if_neg (by simp [hs2owner]),
      if_neg (by simp [hs2waiting]), if_neg (by simpa using hzero),
      if_neg (by simpa using hs2coll)]
  · rw [WaitGroup.Wait, if_neg (by simp [hs2owner]),
      if_neg (by simp [hs2waiting]), if_neg (by simpa using hzero),
      if_neg (by simpa using hs2coll)]
    simpa [WaitGroup.GetCount] using hzero

/-- C1 witness: owner thread 0, `Add(2)`, two `Done()` calls from threads 1
and 2. -/
theorem c1_add_n_dones_wait_returns_witness :
    ((mkWaitGroup 0).Add 0 (2 : Int)).2 = none ∧
    ((((mkWaitGroup 0).Add 0 (2 : Int)).1.runDones
        ([1, 2].map (fun t => (t, (none : Option Nat))))).Wait 0).2 = .ret ∧
    (((((mkWaitGroup 0).Add 0 (2 : Int)).1.runDones
        ([1, 2].map (fun t => (t, (none : Option Nat))))).Wait 0).1).GetCount
      = 0 :=
  c1_add_n_dones_wait_returns 0 2 [1, 2] (by decide) (by decide) (by decide)

/-- C2: starting an epoch (not yet waiting, no collected records) and running
any sequence of non-owner `Done` calls that drives the count to zero, if at
least one call attached a failure record then the owner's `Wait` (and
likewise `WaitFor`) throws `CongregatedException` whose collection is exactly
the list of records attached by those calls — none lost, none duplicated. -/
theorem c2_wait_aggregates_exactly_the_attached_failures (s : WaitGroup)
    (ds : List (Nat × Option Nat))
    (hown : ∀ p ∈ ds, p.1 ≠ s.owner)
    (hwait : s.waiting = false)
    (hcoll : s.collected = [])
    (hfail : ds.filterMap Prod.snd ≠ [])
    (hzero : (s.runDones ds).count = 0) :
    (s.runDones ds).Wait s.owner =
      ({ s.runDones ds with waiting := true, collected := [] },
       .thrown (.congregated (ds.filterMap Prod.snd))) ∧
    ((s.runDones ds).WaitFor s.owner).2 =
      .thrown (.congregated (ds.filterMap Prod.snd)) := by
  have hflds := WaitGroup.runDones_fields ds s hown
  have howner : (s.runDones ds).owner = s.owner := hflds.1
  have hwaiting : (s.runDones ds).waiting = false := by rw [hflds.2.1, hwait]
  have hcollected : (s.runDones ds).collected = ds.filterMap Prod.snd := by
    rw [hflds.2.2.2, hcoll]
    simp
  constructor
  · rw [WaitGroup.Wait, if_neg (by simp [howner]), if_neg (by simp [hwaiting]),
      if_neg (by simpa using hzero), if_pos (by simpa using hcollected ▸ hfail)]
    rw [hcollected]
  · rw [WaitGroup.WaitFor, if_neg (by simp [howner]),
      if_neg (by simp [hwaiting]),
      if_pos ⟨by simpa using hzero, by simpa using hcollected ▸ hfail⟩]
    rw [hcollected]

/-- C2 witness: count 2, worker 1 attaches record 5, worker 2 attaches
nothing; `Wait` throws the aggregate containing exactly [5]. -/
theorem c2_wait_aggregates_exactly_the_attached_failures_witness :
    (WaitGroup.runDones
        { count := 2, owner := 0, waiting := false, collected := [],
          def_count := 2 } [(1, some 5), (2, none)]).Wait 0 =
      ({ WaitGroup.runDones
           { count := 2, owner := 0, waiting := false, collected := [],
             def_count := 2 } [(1, some 5), (2, none)] with
         waiting := true, collected := [] },
       .thrown (.congregated [5])) ∧
    ((WaitGroup.runDones
        { count := 2, owner := 0, waiting := false, collected := [],
          def_count := 2 } [(1, some 5), (2, none)]).WaitFor 0).2 =
      .thrown (.congregated [5]) :=
  c2_wait_aggregates_exactly_the_attached_failures
    { count := 2, owner := 0, waiting := false, collected := [],
      def_count := 2 } [(1, some 5), (2, none)]
    (by decide) (by decide) (by decide) (by decide) (by decide)

/-- C4: `Transfer` on a non-waiting WaitGroup yields a new WaitGroup owned by
the calling thread with the source's count, collected failures and snapshot,
and leaves the source with count 0, no failures and snapshot 0; `Transfer` on
a waiting WaitGroup throws `WaitGroupUseAfterWait` and leaves the source
untouched. -/
theorem c4_transfer_moves_state (s : WaitGroup) (tid : Nat) :
    (s.waiting = false →
      s.Transfer tid =
        ({ s with count := 0, collected := [], def_count := 0 },
         .ok { count := s.count, owner := tid, waiting := false,
               collected := s.collected, def_count := s.def_count })) ∧
    (s.waiting = true → s.Transfer tid = (s, .error .useAfterWait)) := by
  constructor
  · intro h
    rw [WaitGroup.Transfer, if_neg (by simp [h])]
  · intro h
    rw [WaitGroup.Transfer, if_pos (by simp [h])]

/-- C4 witness: a non-waiting source with count 3 and one failure record is
moved to thread 7; a waiting source is rejected untouched. -/
theorem c4_transfer_moves_state_witness :
    ({ count := 3, owner := 0, waiting := false, collected := [5],
       def_count := 3 } : WaitGroup).Transfer 7 =
      ({ count := 0, owner := 0, waiting := false, collected := [],
         def_count := 0 },
       .ok { count := 3, owner := 7, waiting := false, collected := [5],
             def_count := 3 }) ∧
    ({ count := 3, owner := 0, waiting := true, collected := [5],
       def_count := 3 } : WaitGroup).Transfer 7 =
      ({ count := 3, owner := 0, waiting := true, collected := [5],
         def_count := 3 }, .error .useAfterWait) :=
  ⟨(c4_transfer_moves_state
      { count := 3, owner := 0, waiting := false, collected := [5],
        def_count := 3 } 7).1 rfl,
   (c4_transfer_moves_state
      { count := 3, owner := 0, waiting := true, collected := [5],
        def_count := 3 } 7).2 rfl⟩

/-- C5: `Reset` by the owner throws the "Cannot reset" error exactly when
`count != 0` and the waiting flag is still set; in every other state it
succeeds, storing the snapshot `def_count` back into the counter, clearing
the waiting flag and clearing the collected records.  Moreover every
successful `Add` records the post-`Add` counter value in the snapshot
(`def_count` converted back to unsigned is exactly the new count). -/
theorem c5_reset_quiescence_and_snapshot (s : WaitGroup) (tid : Nat)
    (h : tid = s.owner) :
    (s.Reset tid = (s, some .notQuiescent) ↔ (s.count ≠ 0 ∧ s.waiting = true)) ∧
    (¬(s.count ≠ 0 ∧ s.waiting = true) →
      s.Reset tid = ({ s with count := intToU32 s.def_count, waiting := false,
                              collected := [] }, none)) ∧
    (∀ (s0 : WaitGroup) (n : Int), (s0.Add s0.owner n).2 = none →
      intToU32 (s0.Add s0.owner n).1.def_count = (s0.Add s0.owner n).1.count)
    := by
  refine ⟨?_, ?_, ?_⟩
  · constructor
    · intro hres
      by_contra hcond
      rw [WaitGroup.Reset, if_neg (by simp [h]), if_neg hcond] at hres
      exact Option.noConfusion (congrArg Prod.snd hres)
    · intro hcond
      rw [WaitGroup.Reset, if_neg (by simp [h]), if_pos hcond]
  · intro hcond
    rw [WaitGroup.Reset, if_neg (by simp [h]), if_neg hcond]
  · intro s0 n hok
    by_cases hw : s0.waiting = false
    · rw [WaitGroup.Add_ok s0 s0.owner n rfl hw]
      show intToU32 (toInt32 (intToU32 ((s0.count : Int) + n)))
        = intToU32 ((s0.count : Int) + n)
      exact intToU32_toInt32 _ (intToU32_lt _)
    · rw [WaitGroup.Add, if_neg (by simp), if_pos (by simpa using hw)] at hok
      exact Option.noConfusion hok

/-- C5 witness: reset is rejected at count 2 while waiting, accepted after
the wait epoch (count 0, waiting true), restoring the snapshot 2; and a
concrete `Add` records its resulting count in the snapshot. -/
theorem c5_reset_quiescence_and_snapshot_witness :
    (({ count := 2, owner := 0, waiting := true, collected := [5],
        def_count := 2 } : WaitGroup).Reset 0 =
      ({ count := 2, owner := 0, waiting := true, collected := [5],
         def_count := 2 }, some .notQuiescent)
      ↔ ((2 : Nat) ≠ 0 ∧ true = true)) ∧
    (({ count := 0, owner := 0, waiting := true, collected := [5],
        def_count := 2 } : WaitGroup).Reset 0 =
      ({ count := intToU32 2, owner := 0, waiting := false, collected := [],
         def_count := 2 }, none)) :=
  ⟨by
    simpa using
      (c5_reset_quiescence_and_snapshot
        { count := 2, owner := 0, waiting := true, collected := [5],
          def_count := 2 } 0 rfl).1,
   by
    simpa using
      (c5_reset_quiescence_and_snapshot
        { count := 0, owner := 0, waiting := true, collected := [5],
          def_count := 2 } 0 rfl).2.1 (by simp)⟩

/-- C6: `WaitFor` by the owner on an epoch whose count stays nonzero through
the timeout returns `false` and leaves the waiting flag set, so a later
`WaitFor` or `Wait` on the same un-reset instance throws the "one-use only"
reuse error. -/
theorem c6_waitfor_timeout_keeps_waiting_set (s : WaitGroup) (tid : Nat)
    (h1 : tid = s.owner) (h2 : s.waiting = false) (h3 : s.count ≠ 0) :
    s.WaitFor tid = ({ s with waiting := true }, .ret false) ∧
    (({ s with waiting := true } : WaitGroup).WaitFor tid).2 =
      .thrown .oneUseOnly ∧
    (({ s with waiting := true } : WaitGroup).Wait tid).2 =
      .thrown .oneUseOnly := by
  refine ⟨?_, ?_, ?_⟩
  · rw [WaitGroup.WaitFor, if_neg (by simp [h1]), if_neg (by simp [h2]),
      if_neg (by simp [h3])]
    simp [h3]
  · rw [WaitGroup.WaitFor, if_neg (by simp [h1]), if_pos rfl]
  · rw [WaitGroup.Wait, if_neg (by simp [h1]), if_pos rfl]

/-- C6 witness: count 1 with no worker running; the bounded wait times out. -/
theorem c6_waitfor_timeout_keeps_waiting_set_witness :
    ({ count := 1, owner := 0, waiting := false, collected := [],
       def_count := 1 } : WaitGroup).WaitFor 0 =
      ({ count := 1, owner := 0, waiting := true, collected := [],
         def_count := 1 }, .ret false) ∧
    (({ count := 1, owner := 0, waiting := true, collected := [],
        def_count := 1 } : WaitGroup).WaitFor 0).2 = .thrown .oneUseOnly ∧
    (({ count := 1, owner := 0, waiting := true, collected := [],
        def_count := 1 } : WaitGroup).Wait 0).2 = .thrown .oneUseOnly :=
  c6_waitfor_timeout_keeps_waiting_set
    { count := 1, owner := 0, waiting := false, collected := [],
      def_count := 1 } 0 rfl rfl (by decide)

/-- C9: the counter is 32-bit unsigned and a non-owner `Done` decrements it
modulo 2^32: on a 32-bit value the new count is `(count + 2^32 - 1) % 2^32`;
in particular `Done` at count 0 wraps the counter to `2^32 - 1` and does not
notify; `cv.notify_all` fires exactly when the pre-decrement count is 1. -/
theorem c9_done_decrements_modulo_2_pow_32 (s : WaitGroup) (tid : Nat)
    (ex : Option Nat) (h : tid ≠ s.owner) :
    U32 = 2 ^ 32 ∧
    (s.count < U32 → (s.Done tid ex).1.count = (s.count + (U32 - 1)) % U32) ∧
    ((s.Done tid ex).2 = true ↔ s.count = 1) ∧
    (s.count = 0 →
      (s.Done tid ex).1.count = 2 ^ 32 - 1 ∧ (s.Done tid ex).2 = false) := by
  have hflds := WaitGroup.Done_fields s tid ex h
  have hflag : (s.Done tid ex).2 = (s.count == 1) := by
    cases ex <;> simp [WaitGroup.Done, h]
  refine ⟨by decide, ?_, ?_, ?_⟩
  · intro hc
    rw [hflds.2.2.2.2]
    exact u32decr_eq_mod s.count hc
  · rw [hflag]
    simp
  · intro h0
    refine ⟨?_, ?_⟩
    · rw [hflds.2.2.2.2, h0]
      decide
    · rw [hflag, h0]
      decide

/-- C9 witness: worker thread 1 calls `Done()` on a WaitGroup whose count is
already 0: the counter wraps to 2^32 - 1 and no notification fires. -/
theorem c9_done_decrements_modulo_2_pow_32_witness :
    U32 = 2 ^ 32 ∧
    (({ count := 0, owner := 0, waiting := false, collected := [],
        def_count := 0 } : WaitGroup).Done 1 none).1.count = 2 ^ 32 - 1 ∧
    (({ count := 0, owner := 0, waiting := false, collected := [],
        def_count := 0 } : WaitGroup).Done 1 none).2 = false :=
  have h := c9_done_decrements_modulo_2_pow_32
    { count := 0, owner := 0, waiting := false, collected := [],
      def_count := 0 } 1 none (by decide)
  ⟨h.1, (h.2.2.2 rfl).1, (h.2.2.2 rfl).2⟩

/-- C10: when `Wait` completes with a non-empty collected list it throws the
aggregate built from `std::move(collected)`, leaving the WaitGroup's own list
empty; immediately afterwards `HasFinishedSuccessfully()` returns true and
`GetExceptions()` returns the empty sequence, despite failures having
occurred in the epoch. -/
theorem c10_wait_moves_collected_out (s : WaitGroup) (tid : Nat)
    (h1 : tid = s.owner) (h2 : s.waiting = false) (h3 : s.count = 0)
    (h4 : s.collected ≠ []) :
    s.Wait tid = ({ s with waiting := true, collected := [] },
                  .thrown (.congregated s.collected)) ∧
    (s.Wait tid).1.HasFinishedSuccessfully = true ∧
    (s.Wait tid).1.GetExceptions = [] := by
  have hw : s.Wait tid = ({ s with waiting := true, collected := [] },
      .thrown (.congregated s.collected)) := by
    rw [WaitGroup.Wait, if_neg (by simp [h1]), if_neg (by simp [h2]),
      if_neg (by simpa using h3), if_pos (by simpa using h4)]
  refine ⟨hw, ?_, ?_⟩
  · rw [hw]
    rfl
  · rw [hw]
    rfl

/-- C10 witness: count 0, one collected record; after the throwing `Wait`
the accessors report a clean state. -/
theorem c10_wait_moves_collected_out_witness :
    ({ count := 0, owner := 0, waiting := false, collected := [5],
       def_count := 1 } : WaitGroup).Wait 0 =
      ({ count := 0, owner := 0, waiting := true, collected := [],
         def_count := 1 }, .thrown (.congregated [5])) ∧
    (({ count := 0, owner := 0, waiting := false, collected := [5],
        def_count := 1 } : WaitGroup).Wait 0).1.HasFinishedSuccessfully
      = true ∧
    (({ count := 0, owner := 0, waiting := false, collected := [5],
        def_count := 1 } : WaitGroup).Wait 0).1.GetExceptions = [] :=
  c10_wait_moves_collected_out
    { count := 0, owner := 0, waiting := false, collected := [5],
      def_count := 1 } 0 rfl rfl rfl (by decide)

/-- `StreamLine::Locks::SpinLatch` (src/include/Latch.h): an atomic ready
flag; `Wait` busy-spins until the flag is set. -/
structure SpinLatch where
  ready : Bool
deriving DecidableEq, Repr

/-- `SpinLatch::Signal()`: store true. -/
def SpinLatch.Signal (l : SpinLatch) : SpinLatch :=
  { l with ready := true }

/-- `SpinLatch::Reset()`: store false (public member of the Latch class). -/
def SpinLatch.Reset (l : SpinLatch) : SpinLatch :=
  { l with ready := false }

/-- `SpinLatch::IsReady()`: load the flag. -/
def SpinLatch.IsReady (l : SpinLatch) : Bool :=
  l.ready

/-- `SpinLatch::Wait()`: the spin loop neither writes the flag nor any other
state; it terminates without an external `Signal` exactly when the flag is
already set.  Returns (state, terminates-now). -/
def SpinLatch.Wait (l : SpinLatch) : SpinLatch × Bool :=
  (l, l.ready)

/-- `StreamLine::Locks::Latch` (src/include/Latch.h): mutex/cv variant of the
latch; same ready flag. -/
structure Latch where
  ready : Bool
deriving DecidableEq, Repr

/-- `Latch::Signal()`: store true under the lock, then notify_all. -/
def Latch.Signal (l : Latch) : Latch :=
  { l with ready := true }

/-- `Latch::Reset()`: store false under the lock (public member). -/
def Latch.Reset (l : Latch) : Latch :=
  { l with ready := false }

/-- `Latch::IsReady()`: load the flag. -/
def Latch.IsReady (l : Latch) : Bool :=
  l.ready

/-- `Latch::Wait()`: cv wait on the flag; no state is written; returns
without an external `Signal` exactly when the flag is already set. -/
def Latch.Wait (l : Latch) : Latch × Bool :=
  (l, l.ready)

/-- `StreamLine::Locks::HybridLatch` (src/include/Latch.h): ready flag plus a
configurable spin bound before falling back to the cv. -/
structure HybridLatch where
  ready : Bool
  spinCount : Nat
deriving DecidableEq, Repr

/-- `HybridLatch::SetSpinCount(count)`: store the spin bound. -/
def HybridLatch.SetSpinCount (l : HybridLatch) (c : Nat) : HybridLatch :=
  { l with spinCount := c }

/-- `HybridLatch::Signal()`: store true under the lock, then notify_all. -/
def HybridLatch.Signal (l : HybridLatch) : HybridLatch :=
  { l with ready := true }

/-- `HybridLatch::Reset()`: store false under the lock (public member). -/
def HybridLatch.Reset (l : HybridLatch) : HybridLatch :=
  { l with ready := false }

/-- `HybridLatch::IsReady()`: load the flag. -/
def HybridLatch.IsReady (l : HybridLatch) : Bool :=
  l.ready

/-- `HybridLatch::Wait()`: spin up to `spinCount`, then cv wait; no state is
written; returns without an external `Signal` exactly when the flag is
already set. -/
def HybridLatch.Wait (l : HybridLatch) : HybridLatch × Bool :=
  (l, l.ready)

/-- `StreamLine::Locks::SpinBarrier` (src/include/Barrier.h). -/
structure SpinBarrier where
  ready : Bool
deriving DecidableEq, Repr

/-- `SpinBarrier::Signal()`: store true. -/
def SpinBarrier.Signal (b : SpinBarrier) : SpinBarrier :=
  { b with ready := true }

/-- `SpinBarrier::Reset()`: store false. -/
def SpinBarrier.Reset (b : SpinBarrier) : SpinBarrier :=
  { b with ready := false }

/-- `SpinBarrier::PeekReady()`: load the flag. -/
def SpinBarrier.PeekReady (b : SpinBarrier) : Bool :=
  b.ready

/-- `StreamLine::Locks::Barrier` (src/include/Barrier.h): mutex/cv variant. -/
structure Barrier where
  ready : Bool
deriving DecidableEq, Repr

/-- `Barrier::Signal()`: store true under the lock, then notify_all. -/
def Barrier.Signal (b : Barrier) : Barrier :=
  { b with ready := true }

/-- `Barrier::Reset()`: store false under the lock. -/
def Barrier.Reset (b : Barrier) : Barrier :=
  { b with ready := false }

/-- `Barrier::PeekReady()`: load the flag. -/
def Barrier.PeekReady (b : Barrier) : Bool :=
  b.ready

/-- `StreamLine::Locks::HybridBarrier` (src/include/Barrier.h): ready flag
plus a configurable spin bound. -/
structure HybridBarrier where
  ready : Bool
  spinCount : Nat
deriving DecidableEq, Repr

/-- `HybridBarrier::SetSpinCount(count)`: store the spin bound, return the
barrier for chained configuration. -/
def HybridBarrier.SetSpinCount (b : HybridBarrier) (c : Nat) : HybridBarrier :=
  { b with spinCount := c }

/-- `HybridBarrier::Signal()`: store true under the lock, then notify_all. -/
def HybridBarrier.Signal (b : HybridBarrier) : HybridBarrier :=
  { b with ready := true }

/-- `HybridBarrier::Reset()`: store false under the lock. -/
def HybridBarrier.Reset (b : HybridBarrier) : HybridBarrier :=
  { b with ready := false }

/-- `HybridBarrier::PeekReady()`: load the flag. -/
def HybridBarrier.PeekReady (b : HybridBarrier) : Bool :=
  b.ready

/-- C8 counterexample: the claim that no public Latch operation transitions
`ready` from true back to false — that only Barrier variants support the
true-to-false `Reset` transition — is false on the code: each of SpinLatch,
Latch and HybridLatch exposes a public `Reset` that takes a ready latch back
to not-ready. -/
theorem c8_counterexample_latches_expose_reset :
    (SpinLatch.Reset { ready := true }).ready = false ∧
    (Latch.Reset { ready := true }).ready = false ∧
    (HybridLatch.Reset { ready := true, spinCount := 100 }).ready = false :=
  ⟨rfl, rfl, rfl⟩

/-- C8 amended: in every variant — Latch and Barrier alike — `ready`
transitions false-to-true via `Signal` (idempotently), and every variant,
including all three Latch variants, exposes a public `Reset` performing the
true-to-false transition; `Wait`, `IsReady`/`PeekReady` and `SetSpinCount`
never change `ready`. -/
theorem c8_amended_reset_public_in_all_variants :
    (∀ b : Bool, (SpinLatch.Signal ⟨b⟩).ready = true ∧
      (SpinLatch.Reset ⟨b⟩).ready = false ∧
      SpinLatch.Wait ⟨b⟩ = (⟨b⟩, b) ∧ SpinLatch.IsReady ⟨b⟩ = b) ∧
    (∀ b : Bool, (Latch.Signal ⟨b⟩).ready = true ∧
      (Latch.Reset ⟨b⟩).ready = false ∧
      Latch.Wait ⟨b⟩ = (⟨b⟩, b) ∧ Latch.IsReady ⟨b⟩ = b) ∧
    (∀ (b : Bool) (sc c : Nat), (HybridLatch.Signal ⟨b, sc⟩).ready = true ∧
      (HybridLatch.Reset ⟨b, sc⟩).ready = false ∧
      HybridLatch.Wait ⟨b, sc⟩ = (⟨b, sc⟩, b) ∧
      (HybridLatch.SetSpinCount ⟨b, sc⟩ c).ready = b) ∧
    (∀ b : Bool, (SpinBarrier.Signal ⟨b⟩).ready = true ∧
      (SpinBarrier.Reset ⟨b⟩).ready = false ∧ SpinBarrier.PeekReady ⟨b⟩ = b) ∧
    (∀ b : Bool, (Barrier.Signal ⟨b⟩).ready = true ∧
      (Barrier.Reset ⟨b⟩).ready = false ∧ Barrier.PeekReady ⟨b⟩ = b) ∧
    (∀ (b : Bool) (sc c : Nat), (HybridBarrier.Signal ⟨b, sc⟩).ready = true ∧
      (HybridBarrier.Reset ⟨b, sc⟩).ready = false ∧
      (HybridBarrier.SetSpinCount ⟨b, sc⟩ c).ready = b) :=
  ⟨fun _ => ⟨rfl, rfl, rfl, rfl⟩,
   fun _ => ⟨rfl, rfl, rfl, rfl⟩,
   fun _ _ _ => ⟨rfl, rfl, rfl, rfl⟩,
   fun _ => ⟨rfl, rfl, rfl⟩,
   fun _ => ⟨rfl, rfl, rfl⟩,
   fun _ _ _ => ⟨rfl, rfl, rfl⟩⟩
